import Mathlib

set_option maxRecDepth 20000

/-!
Verification of the langchain-chatbot repository: a shallow embedding of
`chatbot.py` (the interactive chat loop) and `test_setup.py` (the
environment verifier), with theorems settling the specification's claims.

Strings are embedded as `List Char`.  Python's negative-length string
repetition (`"*" * n` with `n < 0` yielding the empty string) coincides
with `List.replicate` under truncated `Nat` subtraction, and Python's
slices `s[:8]` / `s[-4:]` are `List.take 8` / `List.drop (length - 4)`
with truncated subtraction.
-/

namespace LangchainChatbot

/-- ASCII model of Python `str.isspace` for the characters `str.strip`
removes: space, tab, newline, carriage return, vertical tab, form feed. -/
def pyIsSpace (c : Char) : Bool :=
  c == ' ' || c == '\t' || c == '\n' || c == '\r' || c == '\x0b' || c == '\x0c'

/-- Python `str.strip()`: drop whitespace from both ends. -/
def pyStrip (s : List Char) : List Char :=
  ((s.dropWhile pyIsSpace).reverse.dropWhile pyIsSpace).reverse

/-- ASCII model of Python `str.lower()`. -/
def pyLower (s : List Char) : List Char :=
  s.map Char.toLower

/-- Python truthiness of an `Optional[str]` value: `None` and the empty
string are falsy, every other string is truthy. -/
def py_truthy (s : Option (List Char)) : Bool :=
  match s with
  | none => false
  | some k => !k.isEmpty

/-! ## test_setup.py -/

/-- The masking expression of `test_api_key`:
`api_key[:8] + "*" * (len(api_key) - 12) + api_key[-4:]`. -/
def masked_key (api_key : List Char) : List Char :=
  api_key.take 8 ++ List.replicate (api_key.length - 12) '*'
    ++ api_key.drop (api_key.length - 4)

/-- `test_api_key`: passes exactly when the credential is present and
non-empty (`if api_key:`). -/
def test_api_key (api_key : Option (List Char)) : Bool :=
  py_truthy api_key

/-- `test_python_version`: `version.major == 3 and version.minor >= 9`. -/
def test_python_version (major minor : Nat) : Bool :=
  major == 3 && decide (9 ≤ minor)

/-- Spec-side reading of "the (major, minor) version meets the minimum
threshold of (3, 9)": the pair is at or above (3, 9) in lexicographic
order. -/
def version_meets_threshold (major minor : Nat) : Bool :=
  decide (3 < major ∨ (major = 3 ∧ 9 ≤ minor))

/-- `test_api_connection`.  The whole body sits in a `try` block whose
first statement imports the client library; `importOk` is the outcome of
that import, and `clientOk` the outcome of constructing `ChatOpenAI`.
Returns the check result (`none` = the "skipped" outcome) paired with
whether a client construction was attempted. -/
def test_api_connection (importOk : Bool) (api_key : Option (List Char))
    (clientOk : Bool) : Option Bool × Bool :=
  if !importOk then (some false, false)
  else if !py_truthy api_key then (none, false)
  else (some clientOk, true)

/-- The `results` list built by `main`: the first three checks are always
appended; the connection result is appended only when it is not `None`
(`if api_test is not None`). -/
def mainResults (pyOk deps keyOk : Bool) (conn : Option Bool) :
    List (List Char × Bool) :=
  [("Python Version".data, pyOk), ("Dependencies".data, deps),
   ("API Key".data, keyOk)]
  ++ (match conn with | some b => [("API Connection".data, b)] | none => [])

/-- `passed = sum(1 for _, result in results if result)`. -/
def passedCount (results : List (List Char × Bool)) : Nat :=
  (results.filter fun r => r.2).length

/-- `total = len(results)`. -/
def totalCount (results : List (List Char × Bool)) : Nat :=
  results.length

/-- The success banner is printed exactly when `passed == total`. -/
def allPassedBanner (results : List (List Char × Bool)) : Bool :=
  passedCount results == totalCount results

/-- The whole verifier run, over the external outcomes it depends on:
interpreter version check, dependency check, the credential value, the
client-library import and the client construction. -/
def verifierResults (pyOk deps : Bool) (api_key : Option (List Char))
    (importOk clientOk : Bool) : List (List Char × Bool) :=
  mainResults pyOk deps (test_api_key api_key)
    (test_api_connection importOk api_key clientOk).1

/-- Spec-side list of executed check outcomes: the three unconditional
checks plus the connection check when it was not skipped. -/
def executedOutcomes (pyOk deps keyOk : Bool) (conn : Option Bool) :
    List Bool :=
  ([some pyOk, some deps, some keyOk, conn]).filterMap id

/-! ## chatbot.py -/

/-- Speaker roles of the conversation history
(`human_prefix="Customer"`, `ai_prefix="Support Agent"`). -/
inductive Role where
  | customer
  | agent
deriving DecidableEq, Repr

/-- One entry of the conversation history. -/
abbrev Msg := Role × List Char

/-- The exit keyword compared against in `run_chatbot`. -/
def exitKeyword : List Char := "exit".data

/-- The fixed instructional text of the prompt template, up to the single
substitution point (the template ends in the placeholder). -/
def templateHead : List Char :=
  ("You are a helpful, friendly customer support agent for a tech company.\n"
   ++ "Your role is to:\n"
   ++ "- Answer questions about products and services\n"
   ++ "- Help with troubleshooting\n"
   ++ "- Be empathetic and professional\n"
   ++ "- Keep responses concise but helpful\n\n").data

/-- The full prompt template passed to `ChatPromptTemplate.from_template`:
fixed boilerplate followed by the one substitution point. -/
def promptTemplate : List Char :=
  templateHead ++ "{input}".data

/-- Modelled from the spec: formatting the template at its single
substitution point (`ChatPromptTemplate` is library code not in this
repository).  The placeholder is terminal in `promptTemplate`, so the
formatted prompt is the boilerplate followed by the inserted text. -/
def format_prompt (text : List Char) : List Char :=
  templateHead ++ text

/-- "Thank you for using our support! Goodbye! 👋" with its leading
blank line, printed on the exit keyword. -/
def farewellLine : List Char := "\nThank you for using our support! Goodbye! 👋".data

/-- "Please enter a message." printed on empty input. -/
def emptyLine : List Char := "Please enter a message.\n".data

/-- "⏳ Thinking..." printed before the remote call. -/
def thinkingLine : List Char := "\n⏳ Thinking...\n".data

/-- The reply line `f"Support Agent: {response}\n"`. -/
def agentLine (response : List Char) : List Char :=
  "Support Agent: ".data ++ response ++ "\n".data

/-- The generic diagnostic `f"\n❌ Error: {e}"`. -/
def errorLine (e : List Char) : List Char :=
  "\n❌ Error: ".data ++ e

/-- "Please check your API key and try again." printed after the
diagnostic. -/
def retryLine : List Char := "Please check your API key and try again.\n".data

/-- "Chatbot interrupted. Goodbye!" printed on KeyboardInterrupt. -/
def interruptLine : List Char := "\n\nChatbot interrupted. Goodbye!".data

/-- What drives one iteration of the `while True` loop: either a line was
read (with the outcome the remote exchange would have — a reply, or an
exception message), or the operator interrupted. -/
inductive LoopEvent where
  | line (raw : List Char) (remote : Except (List Char) (List Char))
  | interrupt

/-- Observable outcome of one loop iteration: whether the loop terminated
(`break`), the conversation history afterwards, the prompts sent to the
remote model, and the lines printed. -/
structure IterResult where
  terminated : Bool
  history : List Msg
  calls : List (List Char)
  printed : List (List Char)
deriving Repr

/-- One iteration of the loop body of `run_chatbot`.  The input line is
stripped on read (`input("You: ").strip()`), compared lowercased against
the exit keyword, skipped when empty, and otherwise sent through
`chain.run`.  Modelled from the spec: on a successful exchange the
chain's `ConversationBufferMemory` (library code not in this repository)
appends the user message and the reply to the history; on an exception
the history is untouched, the generic diagnostic is printed and the loop
continues.  A KeyboardInterrupt prints a farewell and breaks. -/
def run_chatbot_step (history : List Msg) (ev : LoopEvent) : IterResult :=
  match ev with
  | .interrupt => ⟨true, history, [], [interruptLine]⟩
  | .line raw remote =>
    if pyLower (pyStrip raw) = exitKeyword then
      ⟨true, history, [], [farewellLine]⟩
    else if pyStrip raw = [] then
      ⟨false, history, [], [emptyLine]⟩
    else
      match remote with
      | .ok response =>
        ⟨false,
         history ++ [(Role.customer, pyStrip raw), (Role.agent, response)],
         [format_prompt (pyStrip raw)],
         [thinkingLine, agentLine response]⟩
      | .error e =>
        ⟨false, history, [format_prompt (pyStrip raw)],
         [thinkingLine, errorLine e, retryLine]⟩

/-! ## Helper lemmas -/

/-- The last `n` characters of a string, written via `reverse`/`take`,
agree with `drop (length - n)`. -/
lemma lastTake_eq_drop (s : List Char) (n : Nat) :
    (s.reverse.take n).reverse = s.drop (s.length - n) := by
  rw [List.take_reverse, List.reverse_reverse]

/-- Stripping a whitespace-only line yields the empty string. -/
lemma pyStrip_eq_nil (raw : List Char) (hw : ∀ c ∈ raw, pyIsSpace c = true) :
    pyStrip raw = [] := by
  unfold pyStrip
  rw [List.dropWhile_eq_nil_iff.mpr hw]
  simp

/-- A results list whose passed count equals its total has only passing
entries. -/
lemma all_passed_of_count_eq (results : List (List Char × Bool))
    (h : passedCount results = totalCount results) :
    ∀ r ∈ results, r.2 = true := by
  unfold passedCount totalCount at h
  exact List.filter_length_eq_length.mp h

/-! ## Claims -/

/-- C1: for every credential string of length L ≥ 12, the masking applied
before display produces exactly the first 8 characters, followed by
L - 12 mask characters, followed by the last 4 characters; the masked
string has the same length as the key. -/
theorem claim_C1 (s : List Char) (hl : 12 ≤ s.length) :
    masked_key s
      = s.take 8 ++ List.replicate (s.length - 12) '*' ++ (s.reverse.take 4).reverse
    ∧ (s.take 8).length = 8
    ∧ ((s.reverse.take 4).reverse).length = 4
    ∧ (masked_key s).length = s.length := by
  refine ⟨?_, ?_, ?_, ?_⟩
  · unfold masked_key
    rw [lastTake_eq_drop]
  · simp only [List.length_take]
    omega
  · simp only [List.length_reverse, List.length_take]
    omega
  · unfold masked_key
    simp only [List.length_append, List.length_take, List.length_replicate,
      List.length_drop]
    omega

/-- Witness for C1 at a concrete 16-character key. -/
theorem claim_C1_witness :
    masked_key "sk-test-abcd1234".data
      = "sk-test-abcd1234".data.take 8
        ++ List.replicate ("sk-test-abcd1234".data.length - 12) '*'
        ++ ("sk-test-abcd1234".data.reverse.take 4).reverse
    ∧ ("sk-test-abcd1234".data.take 8).length = 8
    ∧ (("sk-test-abcd1234".data.reverse.take 4).reverse).length = 4
    ∧ (masked_key "sk-test-abcd1234".data).length
        = "sk-test-abcd1234".data.length :=
  claim_C1 "sk-test-abcd1234".data (by decide)

/-- C10: for every non-empty credential of length L < 12, the masking
contributes zero mask characters: it is the first min(8, L) characters
followed by the last min(4, L) characters, every output character comes
from the key, and for L ≤ 8 every character of the key appears in
clear. -/
theorem claim_C10 (s : List Char) (_hne : s ≠ []) (hl : s.length < 12) :
    masked_key s = s.take 8 ++ (s.reverse.take 4).reverse
    ∧ (∀ c ∈ masked_key s, c ∈ s)
    ∧ (s.length ≤ 8 → ∀ c ∈ s, c ∈ masked_key s) := by
  have hrep : List.replicate (s.length - 12) '*' = ([] : List Char) := by
    have h0 : s.length - 12 = 0 := by omega
    rw [h0]
    rfl
  refine ⟨?_, ?_, ?_⟩
  · unfold masked_key
    rw [hrep, lastTake_eq_drop]
    simp
  · intro c hc
    unfold masked_key at hc
    rw [hrep] at hc
    simp only [List.append_nil, List.mem_append] at hc
    rcases hc with h | h
    · exact List.mem_of_mem_take h
    · exact List.mem_of_mem_drop h
  · intro h8 c hc
    unfold masked_key
    rw [hrep]
    have ht : s.take 8 = s := List.take_of_length_le h8
    simp only [List.append_nil, List.mem_append, ht]
    exact Or.inl hc

/-- Witness for C10 at a concrete 6-character key. -/
theorem claim_C10_witness :
    masked_key "abcdef".data
      = "abcdef".data.take 8 ++ ("abcdef".data.reverse.take 4).reverse :=
  (claim_C10 "abcdef".data (by decide) (by decide)).1

/-- C2: an input line terminates the loop exactly when its
whitespace-stripped form, compared case-insensitively, equals the exit
keyword; on the exit keyword the farewell is printed; in particular
"EXIT", " exit " and "Exit" terminate. -/
theorem claim_C2 (h : List Msg) (raw : List Char)
    (remote : Except (List Char) (List Char)) :
    ((run_chatbot_step h (.line raw remote)).terminated = true
        ↔ pyLower (pyStrip raw) = pyLower exitKeyword)
    ∧ (pyLower (pyStrip raw) = pyLower exitKeyword
        → (run_chatbot_step h (.line raw remote)).printed = [farewellLine])
    ∧ (run_chatbot_step h (.line "EXIT".data remote)).terminated = true
    ∧ (run_chatbot_step h (.line " exit ".data remote)).terminated = true
    ∧ (run_chatbot_step h (.line "Exit".data remote)).terminated = true := by
  have hlow : pyLower exitKeyword = exitKeyword := by decide
  have hE1 : pyLower (pyStrip "EXIT".data) = exitKeyword := by decide
  have hE2 : pyLower (pyStrip " exit ".data) = exitKeyword := by decide
  have hE3 : pyLower (pyStrip "Exit".data) = exitKeyword := by decide
  refine ⟨?_, ?_, ?_, ?_, ?_⟩
  · rw [hlow]
    by_cases hx : pyLower (pyStrip raw) = exitKeyword
    · simp [run_chatbot_step, hx]
    · by_cases he : pyStrip raw = []
      · rw [he] at hx
        simp [run_chatbot_step, he, hx]
      · cases remote <;> simp [run_chatbot_step, hx, he]
  · rw [hlow]
    intro hx
    simp [run_chatbot_step, hx]
  · simp [run_chatbot_step, hE1]
  · simp [run_chatbot_step, hE2]
  · simp [run_chatbot_step, hE3]

/-- Witness for C2: the trimmed, lowercased form of " Exit " is the exit
keyword, so the iteration prints the farewell. -/
theorem claim_C2_witness :
    (run_chatbot_step [] (.line " Exit ".data (.ok "r".data))).printed
      = [farewellLine] :=
  (claim_C2 [] " Exit ".data (.ok "r".data)).2.1 (by decide)

/-- C3: a whitespace-only (or empty) input line leaves the iteration with
the loop still running, the history unchanged, no remote call, and the
prompt-for-input message printed. -/
theorem claim_C3 (h : List Msg) (raw : List Char)
    (remote : Except (List Char) (List Char))
    (hw : ∀ c ∈ raw, pyIsSpace c = true) :
    run_chatbot_step h (.line raw remote) = ⟨false, h, [], [emptyLine]⟩ := by
  have hs : pyStrip raw = [] := pyStrip_eq_nil raw hw
  have hx : ¬ pyLower (pyStrip raw) = exitKeyword := by
    rw [hs]
    decide
  simp only [run_chatbot_step]
  rw [if_neg hx, if_pos hs]

/-- Witness for C3 at the two-space input line. -/
theorem claim_C3_witness :
    run_chatbot_step [] (.line "  ".data (.error "e".data))
      = ⟨false, [], [], [emptyLine]⟩ :=
  claim_C3 [] "  ".data (.error "e".data) (by decide)

/-- C4: for a non-empty, non-exit input line, a successful exchange
appends exactly one customer entry and one reply entry to the history
(two entries), and a failed exchange leaves the history unchanged. -/
theorem claim_C4 (h : List Msg) (raw response e : List Char)
    (h1 : pyStrip raw ≠ []) (h2 : pyLower (pyStrip raw) ≠ exitKeyword) :
    (run_chatbot_step h (.line raw (.ok response))).history
        = h ++ [(Role.customer, pyStrip raw), (Role.agent, response)]
    ∧ ((run_chatbot_step h (.line raw (.ok response))).history).length
        = h.length + 2
    ∧ (run_chatbot_step h (.line raw (.error e))).history = h := by
  refine ⟨?_, ?_, ?_⟩ <;>
    · simp only [run_chatbot_step]
      rw [if_neg h2, if_neg h1]
      try simp

/-- Witness for C4 at the input "hello". -/
theorem claim_C4_witness :
    (run_chatbot_step [] (.line "hello".data (.ok "hi there".data))).history
        = [] ++ [(Role.customer, pyStrip "hello".data),
                 (Role.agent, "hi there".data)]
    ∧ ((run_chatbot_step [] (.line "hello".data (.ok "hi there".data))).history).length
        = List.length ([] : List Msg) + 2
    ∧ (run_chatbot_step [] (.line "hello".data (.error "boom".data))).history
        = [] :=
  claim_C4 [] "hello".data "hi there".data "boom".data (by decide) (by decide)

/-- C5 counterexample: for the input line " hi ", the prompt sent to the
remote model is not the template instantiated with the raw line as read
from the terminal — the code strips the line before inserting it. -/
theorem claim_C5_counterexample :
    (run_chatbot_step [] (.line " hi ".data (.ok "ok".data))).calls
      ≠ [format_prompt " hi ".data] := by
  decide

/-- C5 (amended): for a non-empty, non-exit input line, the outbound
prompt is the fixed template instantiated at its single substitution
point with the whitespace-stripped input line, and after a successful
exchange the reply is printed. -/
theorem claim_C5 (h : List Msg) (raw response : List Char)
    (h1 : pyStrip raw ≠ []) (h2 : pyLower (pyStrip raw) ≠ exitKeyword) :
    (run_chatbot_step h (.line raw (.ok response))).calls
        = [format_prompt (pyStrip raw)]
    ∧ (run_chatbot_step h (.line raw (.ok response))).printed
        = [thinkingLine, agentLine response] := by
  constructor <;>
    · simp only [run_chatbot_step]
      rw [if_neg h2, if_neg h1]

/-- Witness for C5 at the input "hello". -/
theorem claim_C5_witness :
    (run_chatbot_step [] (.line "hello".data (.ok "ok".data))).calls
        = [format_prompt (pyStrip "hello".data)]
    ∧ (run_chatbot_step [] (.line "hello".data (.ok "ok".data))).printed
        = [thinkingLine, agentLine "ok".data] :=
  claim_C5 [] "hello".data "ok".data (by decide) (by decide)

/-- C9: an exception from the remote exchange is caught inside the loop
body — the diagnostic and remediation lines are printed, the history is
untouched and the loop keeps running; an operator interrupt terminates
the iteration immediately with a farewell. -/
theorem claim_C9 (h : List Msg) (raw e : List Char)
    (h1 : pyStrip raw ≠ []) (h2 : pyLower (pyStrip raw) ≠ exitKeyword) :
    (run_chatbot_step h (.line raw (.error e))).terminated = false
    ∧ (run_chatbot_step h (.line raw (.error e))).history = h
    ∧ (run_chatbot_step h (.line raw (.error e))).printed
        = [thinkingLine, errorLine e, retryLine]
    ∧ run_chatbot_step h .interrupt = ⟨true, h, [], [interruptLine]⟩ := by
  refine ⟨?_, ?_, ?_, rfl⟩ <;>
    · simp only [run_chatbot_step]
      rw [if_neg h2, if_neg h1]

/-- Witness for C9 at the input "hi" with a failing exchange. -/
theorem claim_C9_witness :
    (run_chatbot_step [] (.line "hi".data (.error "boom".data))).terminated = false
    ∧ (run_chatbot_step [] (.line "hi".data (.error "boom".data))).history = []
    ∧ (run_chatbot_step [] (.line "hi".data (.error "boom".data))).printed
        = [thinkingLine, errorLine "boom".data, retryLine]
    ∧ run_chatbot_step [] .interrupt = ⟨true, [], [], [interruptLine]⟩ :=
  claim_C9 [] "hi".data "boom".data (by decide) (by decide)

/-- C6: for every combination of check outcomes, the reported numerator
is the number of executed checks that returned true and the denominator
is the number of executed checks; a skipped connectivity check is
excluded from both. -/
theorem claim_C6 :
    ∀ (pyOk deps keyOk : Bool) (conn : Option Bool),
      passedCount (mainResults pyOk deps keyOk conn)
          = (executedOutcomes pyOk deps keyOk conn).count true
      ∧ totalCount (mainResults pyOk deps keyOk conn)
          = (executedOutcomes pyOk deps keyOk conn).length := by
  decide

/-- C7 counterexample: the interpreter version (4, 0) is at or above the
(3, 9) threshold in lexicographic order, yet the check returns false —
the code requires the major version to be exactly 3. -/
theorem claim_C7_counterexample :
    version_meets_threshold 4 0 = true ∧ test_python_version 4 0 = false := by
  decide

/-- C7 (amended): the interpreter-version check passes exactly when the
major version is exactly 3 and the minor version is at least 9. -/
theorem claim_C7 :
    ∀ major minor : Nat,
      test_python_version major minor = true ↔ (major = 3 ∧ 9 ≤ minor) := by
  intro major minor
  simp [test_python_version]

/-- C8 counterexample: with the credential absent but the connectivity
check's client-library import failing, the connectivity check is not
skipped — it reports failure and is counted in the summary denominator
(4 executed checks, not 3). -/
theorem claim_C8_counterexample :
    (test_api_connection false none false).1 ≠ none
    ∧ totalCount (verifierResults true true none false false) = 4 := by
  decide

/-- C8 (amended): whenever the credential is absent (or empty), the
credential check returns false; provided the connectivity check's import
of the client library succeeds, the connectivity check is skipped — it
returns the skipped outcome, constructs no client, and is excluded from
the summary totals — and the success banner is not printed.  For every import
outcome, the banner is printed only when every executed check
passed. -/
theorem claim_C8 (pyOk deps clientOk : Bool) (api_key : Option (List Char))
    (hkey : py_truthy api_key = false) :
    test_api_key api_key = false
    ∧ test_api_connection true api_key clientOk = (none, false)
    ∧ totalCount (verifierResults pyOk deps api_key true clientOk) = 3
    ∧ allPassedBanner (verifierResults pyOk deps api_key true clientOk) = false
    ∧ (∀ importOk : Bool,
        allPassedBanner (verifierResults pyOk deps api_key importOk clientOk) = true
          → ∀ r ∈ verifierResults pyOk deps api_key importOk clientOk,
              r.2 = true) := by
  have hkey2 : test_api_key api_key = false := hkey
  have hconn : test_api_connection true api_key clientOk = (none, false) := by
    simp [test_api_connection, hkey]
  refine ⟨hkey2, hconn, ?_, ?_, ?_⟩
  · simp [verifierResults, hkey2, hconn, totalCount, mainResults]
  · simp only [verifierResults, hkey2, hconn, allPassedBanner, passedCount,
      totalCount, mainResults]
    cases pyOk <;> cases deps <;> rfl
  · intro importOk hban
    refine all_passed_of_count_eq _ ?_
    simpa [allPassedBanner] using hban

/-- Witness for C8 with the credential entirely absent. -/
theorem claim_C8_witness :
    test_api_key none = false
    ∧ test_api_connection true none false = (none, false)
    ∧ totalCount (verifierResults true true none true false) = 3
    ∧ allPassedBanner (verifierResults true true none true false) = false :=
  ⟨(claim_C8 true true false none rfl).1,
   (claim_C8 true true false none rfl).2.1,
   (claim_C8 true true false none rfl).2.2.1,
   (claim_C8 true true false none rfl).2.2.2.1⟩

end LangchainChatbot
